import Mathlib

/-!
Shallow embedding of `fastapi_roundtable/main.py` (the `Roundtable` session
validator) and proofs about its polling state machine.

The Python `validate_session` coroutine is a `while True` loop over network
fetches, interleaved with `asyncio.sleep` calls and `perf_counter` reads.
We embed it as a fuel-indexed recursive function over

  * an environment `fetch : Nat → Response` giving the i-th HTTP response of
    `GET /v1/sessions/report` (status plus the JSON body fields the code
    reads),
  * a duration `fetchDur : Nat → ℚ` the i-th fetch takes (covering the
    network round trip and the body parse, i.e. everything between the sleep
    and the `perf_counter()` read on the timeout check),
  * an explicit clock: `asyncio.sleep d` advances time by `d`, and each
    fetch advances it by its duration.

The fuel argument is needed because the Python loop can genuinely run
forever (every iteration whose fetch returns a non-200 status just
continues); `none` means the loop has not terminated within the given
number of iterations.  Each loop iteration consumes exactly one unit of
fuel, so `none` for every fuel value is non-termination.

Besides the risk score the loop result records observable behaviour needed
by the specification claims: the event trace (sleeps and fetch calls in
order), the number of fetch attempts, the index of the terminating fetch,
whether termination came from the timeout branch, and the final clock.
-/

namespace FastapiRoundtable

/-- One entry of the `user_logs` array in the service's JSON response.  The
validator only reads the `action` field (`item["action"]`, main.py line 110). -/
structure LogEntry where
  action : String
deriving DecidableEq

/-- One HTTP response of `GET /v1/sessions/report`.  `risk_score` and
`user_logs` model the JSON body, which the code reads only when
`status = 200` (main.py lines 105-107). -/
structure Response where
  status : Nat
  risk_score : Int
  user_logs : List LogEntry
deriving DecidableEq

/-- The distinct observable effects of one `validate_session` call: an
`asyncio.sleep d` (line 100) and the i-th `aiohttp_session.get` fetch
(lines 101-104). -/
inductive Event where
  | sleep (d : ℚ)
  | fetchCall (i : Nat)
deriving DecidableEq

/-- The configuration a `Roundtable` instance stores in `__init__`
(main.py lines 58-60); the aiohttp session itself is transport plumbing
and carries no decision-relevant state beyond the key. -/
structure Roundtable where
  api_key : String
  status_code : Nat
  max_risk_score : Int
deriving DecidableEq

/-- Class attribute `_validation_pooling_interval = 1` (main.py line 33). -/
def validation_pooling_interval : ℚ := 1

/-- Terminal outcome of `validate_session`: a normal return carrying no
value (accept) or a raised `HTTPException(status_code=...)` (reject). -/
inductive Outcome where
  | accept
  | reject (status_code : Nat)
deriving DecidableEq

/-- What the `while True` loop of `validate_session` produced when it
terminated: the final `risk_score` variable, the number of fetch attempts
performed, the index of the fetch at which the loop broke, whether the
break was the timeout branch (lines 115-118) rather than a score-accepting
break, the full event trace, and the clock value when the loop broke. -/
structure LoopResult where
  risk_score : Int
  fetches : Nat
  lastIndex : Nat
  timedOut : Bool
  trace : List Event
  finishTime : ℚ
deriving DecidableEq

/-- The set `{item["action"] for item in data["user_logs"]}` of main.py
line 110, as the list of actions (membership agrees with the Python set). -/
def actions (r : Response) : List String :=
  r.user_logs.map LogEntry.action

/-- The `while True` loop of `validate_session` (main.py lines 98-122).

`require_action` and `timeout` are the call's parameters; `start_time` is
the `perf_counter()` read at line 89; `i` is the index of the next fetch,
`ti` the current clock, `acc` the event trace so far.  Following the code:
`sleep_for` is fixed before the loop (lines 92-96) to the whole timeout in
Mode A (`require_action = none`) and to the pooling interval in Mode B, and
is never changed afterwards, so every iteration — including a retry after a
failed fetch — begins by sleeping `sleep_for` whenever it is positive
(lines 99-100).  A non-200 status `continue`s (lines 105-106).  On a 200
response, Mode B first tests membership of the required action (lines
109-113), then the elapsed-time deadline (lines 115-118, breaking with the
initial sentinel `risk_score = 100` of line 90); Mode A breaks at once with
the fetched score (lines 119-122). -/
def sessionLoop (require_action : Option String) (timeout : ℚ)
    (fetch : Nat → Response) (fetchDur : Nat → ℚ) (start_time : ℚ) :
    Nat → Nat → ℚ → List Event → Option LoopResult
  | 0, _, _, _ => none
  | fuel + 1, i, ti, acc =>
    let sleep_for : ℚ :=
      if require_action.isNone then timeout else validation_pooling_interval
    let t1 : ℚ := if 0 < sleep_for then ti + sleep_for else ti
    let acc1 : List Event :=
      if 0 < sleep_for then acc ++ [Event.sleep sleep_for] else acc
    let resp := fetch i
    let t2 : ℚ := t1 + fetchDur i
    let acc2 : List Event := acc1 ++ [Event.fetchCall i]
    if resp.status ≠ 200 then
      sessionLoop require_action timeout fetch fetchDur start_time fuel (i + 1) t2 acc2
    else
      match require_action with
      | some a =>
        if a ∈ actions resp then
          some ⟨resp.risk_score, i + 1, i, false, acc2, t2⟩
        else if timeout < t2 - start_time then
          some ⟨100, i + 1, i, true, acc2, t2⟩
        else
          sessionLoop require_action timeout fetch fetchDur start_time fuel (i + 1) t2 acc2
      | none =>
        some ⟨resp.risk_score, i + 1, i, false, acc2, t2⟩

/-- `Roundtable.validate_session` (main.py lines 68-125): run the loop from
the recorded start time with an empty trace, then apply the decision policy
of lines 124-125: raise `HTTPException(status_code=self.status_code)` when
`risk_score > self.max_risk_score`, otherwise return normally. -/
def validate_session (cfg : Roundtable) (require_action : Option String)
    (session_validation_timeout : ℚ) (fetch : Nat → Response)
    (fetchDur : Nat → ℚ) (start_time : ℚ) (fuel : Nat) :
    Option (Outcome × LoopResult) :=
  (sessionLoop require_action session_validation_timeout fetch fetchDur
      start_time fuel 0 start_time []).map fun r =>
    (if cfg.max_risk_score < r.risk_score then Outcome.reject cfg.status_code
     else Outcome.accept, r)

/-- `Roundtable.__init__` (main.py lines 35-66).  `api_key` is the explicit
argument; `env` models `os.environ.get("ROUNDTABLE_API_KEY")` (`none` when
the variable is unset).  The code substitutes `environ.get(..., "")` only
when the argument is `None` and rejects a falsy (empty) result; otherwise
it stores the configuration. -/
def roundtableInit (api_key : Option String) (env : Option String)
    (status_code : Nat) (max_risk_score : Int) : Except String Roundtable :=
  match api_key with
  | some k => Except.ok ⟨k, status_code, max_risk_score⟩
  | none =>
    let k := env.getD ""
    if k = "" then
      Except.error "ROUNDTABLE_API_KEY environment variable is not set"
    else
      Except.ok ⟨k, status_code, max_risk_score⟩

/-- The session-id source descriptor built by `__call__` (main.py lines
206-211): `params.Form`, `params.Header` or `params.Body` with the given
alias. -/
inductive SessionSource where
  | form (aliasName : String)
  | header (aliasName : String)
  | body (aliasName : String)
deriving DecidableEq

/-- `sum(x is not None for x in (...))` of main.py line 201. -/
def countSome (xs : List (Option String)) : Nat :=
  (xs.filter Option.isSome).length

/-- `Roundtable.__call__` (main.py lines 154-224): validate that exactly one
of the three session-id sources was supplied (line 201, raising `ValueError`
otherwise), then select the source by the if/elif chain of lines 206-213.
The closure returned by the Python code only captures this source and the
polling options; no network activity happens during `__call__` itself —
`validate_session` runs only when the dependency is later invoked — so the
construction result is fully described by the chosen source. -/
def roundtableCall (form_field http_header body_field : Option String) :
    Except String SessionSource :=
  if countSome [form_field, http_header, body_field] ≠ 1 then
    Except.error "Exactly one of form_field, http_header, or body_field must be provided"
  else
    match form_field with
    | some f => Except.ok (SessionSource.form f)
    | none =>
      match http_header with
      | some h => Except.ok (SessionSource.header h)
      | none =>
        match body_field with
        | some b => Except.ok (SessionSource.body b)
        | none =>
          Except.error "One of form_field, http_header, or body_field must be provided"

/-- Termination of a `validate_session` call for some amount of fuel: since
each iteration of the `while True` loop consumes exactly one unit of fuel,
this is exactly "the Python loop eventually breaks and the call returns or
raises". -/
def validationTerminates (cfg : Roundtable) (require_action : Option String)
    (timeout : ℚ) (fetch : Nat → Response) (fetchDur : Nat → ℚ)
    (start_time : ℚ) : Prop :=
  ∃ fuel, (validate_session cfg require_action timeout fetch fetchDur
    start_time fuel).isSome

/-- An environment in which every fetch fails with HTTP 500. -/
def allFailFetch : Nat → Response := fun _ => ⟨500, 0, []⟩

/-- The decision-relevant view of a loop result: risk score, number of fetch
attempts, terminating fetch index, whether the timeout branch fired, and the
event trace. -/
def loopView (r : LoopResult) : Int × Nat × Nat × Bool × List Event :=
  (r.risk_score, r.fetches, r.lastIndex, r.timedOut, r.trace)

/-- Concrete environment: every fetch succeeds with risk score 51 and no
logged actions. -/
def okFetch51 : Nat → Response := fun _ => ⟨200, 51, []⟩

/-- Concrete environment: the first fetch fails with HTTP 500, every later
fetch succeeds with risk score 10. -/
def failThenOk : Nat → Response :=
  fun i => if i = 0 then ⟨500, 0, []⟩ else ⟨200, 10, []⟩

/-- Concrete environment: every fetch succeeds with risk score 87 and a
`login` action in the logs. -/
def loginFetch : Nat → Response := fun _ => ⟨200, 87, [⟨"login"⟩]⟩

/-- Concrete environment: every fetch succeeds with risk score 0 and an
empty log. -/
def emptyLogsFetch : Nat → Response := fun _ => ⟨200, 0, []⟩

/-- Concrete fetch-duration assignment: every fetch is instantaneous. -/
def zeroDur : Nat → ℚ := fun _ => 0

/-- Concrete fetch-duration assignment: every fetch takes 100 time units. -/
def hundredDur : Nat → ℚ := fun _ => 100

/-- C1: for every risk score the loop produces — fetched or the timeout
sentinel — `validate_session` raises `HTTPException(self.status_code)` iff
the score strictly exceeds `max_risk_score` (main.py lines 124-125); a
score equal to `max_risk_score` is accepted, and acceptance is the
`Outcome.accept` constructor, which carries no value, matching the
coroutine's bare `return`. -/
theorem validate_session_decision_policy
    (cfg : Roundtable) (ra : Option String) (t : ℚ) (fetch : Nat → Response)
    (fd : Nat → ℚ) (st : ℚ) (fuel : Nat) (out : Outcome) (r : LoopResult)
    (h : validate_session cfg ra t fetch fd st fuel = some (out, r)) :
    (out = Outcome.reject cfg.status_code ↔ cfg.max_risk_score < r.risk_score) ∧
    (r.risk_score = cfg.max_risk_score → out = Outcome.accept) := by
  unfold validate_session at h
  cases hs : sessionLoop ra t fetch fd st fuel 0 st [] with
  | none => rw [hs] at h; simp at h
  | some r' =>
    rw [hs] at h
    simp only [Option.map_some', Option.some.injEq, Prod.mk.injEq] at h
    obtain ⟨hout, hr⟩ := h
    subst hr
    by_cases hlt : cfg.max_risk_score < r'.risk_score
    · rw [if_pos hlt] at hout
      subst hout
      refine ⟨by simp [hlt], fun he => absurd hlt (by omega)⟩
    · rw [if_neg hlt] at hout
      subst hout
      exact ⟨by simp [hlt], fun _ => rfl⟩

/-- Witness for C1 at a concrete run: one successful fetch with score 51
against threshold 50 is rejected with the configured status code 404. -/
theorem validate_session_decision_policy_witness :
    (Outcome.reject 404 = Outcome.reject 404 ↔ (50 : Int) < 51) ∧
    ((51 : Int) = 50 → Outcome.reject 404 = Outcome.accept) :=
  validate_session_decision_policy ⟨"key", 404, 50⟩ none 60 okFetch51
    zeroDur 0 1 (Outcome.reject 404)
    ⟨51, 1, 0, false, [Event.sleep 60, Event.fetchCall 0], 60⟩
    (by norm_num [validate_session, sessionLoop, okFetch51, zeroDur, actions])

/-- C8: `__call__` (main.py lines 201-213) raises `ValueError` exactly when
the number of supplied session-id sources differs from one, and otherwise
returns the dependency's source descriptor.  The check happens before the
closure is built, and the closure performs no network activity until it is
invoked, so construction itself involves no network at all. -/
theorem call_exactly_one_source (f h b : Option String) :
    ((∃ s, roundtableCall f h b = Except.ok s) ↔ countSome [f, h, b] = 1) ∧
    (countSome [f, h, b] ≠ 1 →
      roundtableCall f h b =
        Except.error
          "Exactly one of form_field, http_header, or body_field must be provided") := by
  rcases f with _ | f <;> rcases h with _ | h <;> rcases b with _ | b <;>
    simp [roundtableCall, countSome]

/-- Witness for C8: supplying zero sources yields the configuration error. -/
theorem call_exactly_one_source_witness :
    roundtableCall none none none =
      Except.error
        "Exactly one of form_field, http_header, or body_field must be provided" :=
  (call_exactly_one_source none none none).2 (by decide)

/-- C9: `__init__` (main.py lines 52-58) raises `ValueError` when no
explicit `api_key` is given and `ROUNDTABLE_API_KEY` is unset or empty;
with a credential available — explicit, or a non-empty environment value —
construction succeeds and stores that credential in `api_key`. -/
theorem init_requires_credential (env : Option String) (sc : Nat) (mrs : Int) :
    (env.getD "" = "" →
      roundtableInit none env sc mrs =
        Except.error "ROUNDTABLE_API_KEY environment variable is not set") ∧
    (env.getD "" ≠ "" →
      roundtableInit none env sc mrs = Except.ok ⟨env.getD "", sc, mrs⟩) ∧
    (∀ k, roundtableInit (some k) env sc mrs = Except.ok ⟨k, sc, mrs⟩) := by
  refine ⟨fun he => ?_, fun he => ?_, fun k => rfl⟩ <;>
    simp [roundtableInit, he]

/-- Witness for C9: with no explicit key and the variable unset,
construction fails with the configuration error. -/
theorem init_requires_credential_witness :
    roundtableInit none none 404 50 =
      Except.error "ROUNDTABLE_API_KEY environment variable is not set" :=
  (init_requires_credential none 404 50).1 (by decide)

/-- If every fetch returns a non-200 status, the loop never terminates:
each iteration takes the `continue` branch of main.py lines 105-106,
regardless of the operating mode, and the elapsed-time check of lines
115-118 is never reached because it sits behind the 200-status test. -/
theorem sessionLoop_of_allFail (ra : Option String) (t : ℚ)
    (fetch : Nat → Response) (fd : Nat → ℚ) (st : ℚ)
    (hfail : ∀ i, (fetch i).status ≠ 200) :
    ∀ fuel i ti acc, sessionLoop ra t fetch fd st fuel i ti acc = none := by
  intro fuel
  induction fuel with
  | zero => intro i ti acc; rfl
  | succ n ih =>
    intro i ti acc
    simp only [sessionLoop]
    simp only [hfail i, ite_true, if_pos, ne_eq, not_false_eq_true]
    exact ih (i + 1) _ _

/-- C2 counterexample: with a response sequence in which every fetch
returns HTTP 500, `validate_session` produces no terminal outcome for any
number of loop iterations, in either mode — the call neither returns nor
raises, contradicting the claim that a terminal outcome is produced for
every sequence of fetch responses, including an all-non-200 one. -/
theorem validate_session_allFail_no_outcome :
    ¬ validationTerminates ⟨"key", 404, 50⟩ none 60 allFailFetch zeroDur 0 ∧
    ¬ validationTerminates ⟨"key", 404, 50⟩ (some "login") 2 allFailFetch zeroDur 0 := by
  have hfail : ∀ i, (allFailFetch i).status ≠ 200 := fun i => by
    simp [allFailFetch]
  constructor <;>
  · rintro ⟨fuel, hsome⟩
    rw [validate_session,
      sessionLoop_of_allFail _ _ allFailFetch zeroDur _ hfail fuel 0 _ []] at hsome
    simp at hsome

/-- C2 (amended): whenever a `validate_session` call terminates it produces
exactly one terminal outcome — a normal return (accept) or a raised
rejection, never both — but termination is not guaranteed for every
response sequence: if every fetch returns a non-200 status the loop runs
forever and no outcome is produced. -/
theorem validate_session_unique_outcome
    (cfg : Roundtable) (ra : Option String) (t : ℚ) (fetch : Nat → Response)
    (fd : Nat → ℚ) (st : ℚ) (fuel : Nat) :
    (∀ out r, validate_session cfg ra t fetch fd st fuel = some (out, r) →
      (out = Outcome.accept ∧ ∀ c, out ≠ Outcome.reject c) ∨
      (out = Outcome.reject cfg.status_code ∧ out ≠ Outcome.accept)) ∧
    ((∀ i, (fetch i).status ≠ 200) →
      validate_session cfg ra t fetch fd st fuel = none) := by
  constructor
  · intro out r h
    unfold validate_session at h
    cases hs : sessionLoop ra t fetch fd st fuel 0 st [] with
    | none => rw [hs] at h; simp at h
    | some r' =>
      rw [hs] at h
      simp only [Option.map_some', Option.some.injEq, Prod.mk.injEq] at h
      obtain ⟨hout, hr⟩ := h
      by_cases hlt : cfg.max_risk_score < r'.risk_score
      · rw [if_pos hlt] at hout
        right
        subst hout
        exact ⟨rfl, by simp⟩
      · rw [if_neg hlt] at hout
        subst hout
        exact Or.inl ⟨rfl, by simp⟩
  · intro hfail
    unfold validate_session
    rw [sessionLoop_of_allFail ra t fetch fd st hfail fuel 0 st []]
    rfl

/-- Witness for C2 (amended): the all-HTTP-500 environment yields no
outcome after five loop iterations. -/
theorem validate_session_unique_outcome_witness :
    validate_session ⟨"key", 404, 50⟩ none 60 allFailFetch zeroDur 0 5 = none :=
  (validate_session_unique_outcome ⟨"key", 404, 50⟩ none 60 allFailFetch
    zeroDur 0 5).2 (fun i => by simp [allFailFetch])

/-- A Mode-A run in which the first `k` fetches fail and fetch `k` succeeds:
the loop performs `k + 1` fetch attempts, sleeps the whole timeout before
every one of them (the Python `sleep_for` variable is set once at lines
92-94 and never reset, so a retry after a failed fetch sleeps the full
timeout again), and terminates with fetch `k`'s risk score. -/
theorem modeA_run (t : ℚ) (fetch : Nat → Response) (fd : Nat → ℚ) (st : ℚ)
    (ht : 0 < t) :
    ∀ (fuel i : Nat) (ti : ℚ) (acc : List Event) (k : Nat),
      i ≤ k → k < i + fuel →
      (∀ j, i ≤ j → j < k → (fetch j).status ≠ 200) →
      (fetch k).status = 200 →
      (sessionLoop none t fetch fd st fuel i ti acc).map loopView =
        some ((fetch k).risk_score, k + 1, k, false,
          acc ++ (List.range' i (k + 1 - i)).flatMap
            (fun j => [Event.sleep t, Event.fetchCall j])) := by
  intro fuel
  induction fuel with
  | zero => intro i ti acc k hik hk hfail hok; omega
  | succ n ih =>
    intro i ti acc k hik hk hfail hok
    rcases eq_or_lt_of_le hik with rfl | hlt
    · have h1 : i + 1 - i = 1 := by omega
      simp only [sessionLoop]
      simp [hok, ht, loopView, h1, List.range'_succ]
    · have hfi : (fetch i).status ≠ 200 := hfail i le_rfl hlt
      simp only [sessionLoop]
      simp only [Option.isNone_none, ite_true, hfi, ne_eq, not_false_eq_true,
        if_pos, ht]
      refine (ih (i + 1) _ _ k hlt (by omega)
        (fun j hj1 hj2 => hfail j (by omega) hj2) hok).trans ?_
      have h2 : k + 1 - i = (k + 1 - (i + 1)) + 1 := by omega
      rw [h2, List.range'_succ, List.flatMap_cons]
      simp

/-- C3: in Mode A (`require_action = None`) with a positive timeout (the
data model requires the timeout to be a positive duration), the call sleeps
the entire timeout up front and — provided the first fetch succeeds —
performs exactly one fetch, decides with that fetch's `risk_score`, and
finishes at `start + timeout + fetch duration`.  The event trace is exactly
one sleep of the whole timeout followed by one fetch. -/
theorem modeA_sleeps_full_timeout_then_single_fetch
    (cfg : Roundtable) (t : ℚ) (fetch : Nat → Response) (fd : Nat → ℚ)
    (st : ℚ) (fuel : Nat) (ht : 0 < t) (hfuel : 1 ≤ fuel)
    (hok : (fetch 0).status = 200) :
    validate_session cfg none t fetch fd st fuel =
      some (if cfg.max_risk_score < (fetch 0).risk_score
            then Outcome.reject cfg.status_code else Outcome.accept,
        ⟨(fetch 0).risk_score, 1, 0, false,
          [Event.sleep t, Event.fetchCall 0], st + t + fd 0⟩) := by
  obtain ⟨n, rfl⟩ : ∃ n, fuel = n + 1 := ⟨fuel - 1, by omega⟩
  unfold validate_session
  simp only [sessionLoop]
  simp [hok, ht]

/-- Witness for C3: timeout 60, first fetch succeeds with score 51: one
sleep of 60, one fetch, rejection with the configured status code. -/
theorem modeA_sleeps_full_timeout_then_single_fetch_witness :
    validate_session ⟨"key", 404, 50⟩ none 60 okFetch51 zeroDur 0 1 =
      some (Outcome.reject 404,
        ⟨51, 1, 0, false, [Event.sleep 60, Event.fetchCall 0], 0 + 60 + 0⟩) := by
  have h := modeA_sleeps_full_timeout_then_single_fetch ⟨"key", 404, 50⟩ 60
    okFetch51 zeroDur 0 1 (by norm_num) le_rfl (by simp [okFetch51])
  simpa [okFetch51, zeroDur] using h

/-- C4 counterexample: Mode A, timeout 60, the first fetch fails with HTTP
500 and the second succeeds.  The event trace of the run is
`[sleep 60, fetch 0, sleep 60, fetch 1]`: the failed attempt is retried
only after a second full-timeout sleep, not "immediately with zero further
delay" — `sleep_for` is set before the loop (main.py lines 92-94) and never
cleared, so the `continue` of line 106 loops back into the sleep of lines
99-100. -/
theorem modeA_retry_extra_sleep_cex :
    (sessionLoop none 60 failThenOk zeroDur 0 2 0 0 []).map loopView =
      some (10, 2, 1, false,
        [Event.sleep 60, Event.fetchCall 0, Event.sleep 60, Event.fetchCall 1]) := by
  norm_num [sessionLoop, failThenOk, zeroDur, loopView]

/-- C4 (amended): in Mode A, when a fetch returns a non-success status the
attempt is discarded and retried, but each retry attempt is preceded by a
further sleep of the entire timeout (never a zero-delay retry): a run whose
first `k` fetches fail has trace
`[sleep t, fetch 0, sleep t, fetch 1, …, sleep t, fetch k]`. -/
theorem modeA_retry_sleeps_timeout_again
    (t : ℚ) (fetch : Nat → Response) (fd : Nat → ℚ) (st : ℚ)
    (fuel k : Nat) (ht : 0 < t) (hk : k < fuel)
    (hfail : ∀ j, j < k → (fetch j).status ≠ 200)
    (hok : (fetch k).status = 200) :
    (sessionLoop none t fetch fd st fuel 0 st []).map loopView =
      some ((fetch k).risk_score, k + 1, k, false,
        (List.range (k + 1)).flatMap
          (fun j => [Event.sleep t, Event.fetchCall j])) := by
  have h := modeA_run t fetch fd st ht fuel 0 st [] k (Nat.zero_le k)
    (by omega) (fun j hj1 hj2 => hfail j hj2) hok
  simpa [List.range_eq_range'] using h

/-- Witness for C4 (amended): with the fail-then-succeed environment the
run's trace interleaves a full 60-second sleep before each of the two
fetch attempts. -/
theorem modeA_retry_sleeps_timeout_again_witness :
    (sessionLoop none 60 failThenOk zeroDur 7 2 0 7 []).map loopView =
      some (10, 2, 1, false,
        [Event.sleep 60, Event.fetchCall 0, Event.sleep 60, Event.fetchCall 1]) := by
  have h := modeA_retry_sleeps_timeout_again 60 failThenOk zeroDur 7 2 1
    (by norm_num) (by omega)
    (fun j hj => by
      have hj0 : j = 0 := by omega
      subst hj0
      simp [failThenOk])
    (by simp [failThenOk])
  simpa [failThenOk, List.range_succ] using h

/-- One unfolded iteration of the loop in Mode B: sleep the pooling
interval (it is positive, so the `if sleep_for > 0` guard always fires),
fetch, then — in order — the status test, the required-action membership
test, and the elapsed-time test. -/
theorem sessionLoop_modeB_succ (a : String) (t : ℚ) (fetch : Nat → Response)
    (fd : Nat → ℚ) (st : ℚ) (n i : Nat) (ti : ℚ) (acc : List Event) :
    sessionLoop (some a) t fetch fd st (n + 1) i ti acc =
      if (fetch i).status ≠ 200 then
        sessionLoop (some a) t fetch fd st n (i + 1)
          (ti + validation_pooling_interval + fd i)
          (acc ++ [Event.sleep validation_pooling_interval, Event.fetchCall i])
      else if a ∈ actions (fetch i) then
        some ⟨(fetch i).risk_score, i + 1, i, false,
          acc ++ [Event.sleep validation_pooling_interval, Event.fetchCall i],
          ti + validation_pooling_interval + fd i⟩
      else if t < ti + validation_pooling_interval + fd i - st then
        some ⟨100, i + 1, i, true,
          acc ++ [Event.sleep validation_pooling_interval, Event.fetchCall i],
          ti + validation_pooling_interval + fd i⟩
      else
        sessionLoop (some a) t fetch fd st n (i + 1)
          (ti + validation_pooling_interval + fd i)
          (acc ++ [Event.sleep validation_pooling_interval, Event.fetchCall i]) := by
  simp only [sessionLoop, Option.isNone_some]
  norm_num [validation_pooling_interval]

/-- A Mode-B run in which the first `k` fetches fail and fetch `k` succeeds
with the required action present in its logs: the loop sleeps the pooling
interval before every attempt (failed ones included) and terminates at
fetch `k` with that fetch's risk score — for every timeout value, because
the elapsed-time test sits behind the membership test. -/
theorem modeB_run (a : String) (t : ℚ) (fetch : Nat → Response)
    (fd : Nat → ℚ) (st : ℚ) :
    ∀ (fuel i : Nat) (ti : ℚ) (acc : List Event) (k : Nat),
      i ≤ k → k < i + fuel →
      (∀ j, i ≤ j → j < k → (fetch j).status ≠ 200) →
      (fetch k).status = 200 → a ∈ actions (fetch k) →
      (sessionLoop (some a) t fetch fd st fuel i ti acc).map loopView =
        some ((fetch k).risk_score, k + 1, k, false,
          acc ++ (List.range' i (k + 1 - i)).flatMap
            (fun j => [Event.sleep validation_pooling_interval,
                       Event.fetchCall j])) := by
  intro fuel
  induction fuel with
  | zero => intro i ti acc k hik hk hfail hok hmem; omega
  | succ n ih =>
    intro i ti acc k hik hk hfail hok hmem
    rw [sessionLoop_modeB_succ]
    rcases eq_or_lt_of_le hik with rfl | hlt
    · rw [if_neg (by simp [hok]), if_pos hmem]
      have h1 : i + 1 - i = 1 := by omega
      simp [loopView, h1, List.range'_succ]
    · have hfi : (fetch i).status ≠ 200 := hfail i le_rfl hlt
      rw [if_pos hfi]
      refine (ih (i + 1) _ _ k hlt (by omega)
        (fun j hj1 hj2 => hfail j (by omega) hj2) hok hmem).trans ?_
      have h2 : k + 1 - i = (k + 1 - (i + 1)) + 1 := by omega
      rw [h2, List.range'_succ, List.flatMap_cons]
      simp

/-- Invariant of every terminating Mode-B run: the loop only ever breaks at
a successful (HTTP 200) fetch; every attempt — retries after failures
included — is preceded by a sleep of the pooling interval; and the break is
either the action-found break carrying that fetch's score, or the timeout
break carrying the sentinel score 100, taken only when the required action
is absent from the terminating fetch and the elapsed time exceeds the
timeout. -/
theorem modeB_some_inv (a : String) (t : ℚ) (fetch : Nat → Response)
    (fd : Nat → ℚ) (st : ℚ) :
    ∀ (fuel i : Nat) (ti : ℚ) (acc : List Event) (r : LoopResult),
      sessionLoop (some a) t fetch fd st fuel i ti acc = some r →
      (fetch r.lastIndex).status = 200 ∧ i ≤ r.lastIndex ∧
      r.fetches = r.lastIndex + 1 ∧
      r.trace = acc ++ (List.range' i (r.lastIndex + 1 - i)).flatMap
          (fun j => [Event.sleep validation_pooling_interval,
                     Event.fetchCall j]) ∧
      ((r.timedOut = false ∧ a ∈ actions (fetch r.lastIndex) ∧
          r.risk_score = (fetch r.lastIndex).risk_score) ∨
       (r.timedOut = true ∧ a ∉ actions (fetch r.lastIndex) ∧
          r.risk_score = 100 ∧ t < r.finishTime - st)) := by
  intro fuel
  induction fuel with
  | zero => intro i ti acc r h; exact absurd h (by simp [sessionLoop])
  | succ n ih =>
    intro i ti acc r h
    rw [sessionLoop_modeB_succ] at h
    by_cases hst : (fetch i).status = 200
    · rw [if_neg (by simp [hst])] at h
      by_cases hmem : a ∈ actions (fetch i)
      · rw [if_pos hmem] at h
        injection h with h'
        subst h'
        refine ⟨hst, le_refl i, rfl, ?_, Or.inl ⟨rfl, hmem, rfl⟩⟩
        have h1 : i + 1 - i = 1 := by omega
        simp [h1, List.range'_succ]
      · rw [if_neg hmem] at h
        by_cases htime : t < ti + validation_pooling_interval + fd i - st
        · rw [if_pos htime] at h
          injection h with h'
          subst h'
          refine ⟨hst, le_refl i, rfl, ?_, Or.inr ⟨rfl, hmem, rfl, htime⟩⟩
          have h1 : i + 1 - i = 1 := by omega
          simp [h1, List.range'_succ]
        · rw [if_neg htime] at h
          obtain ⟨c1, c2, c3, c4, c5⟩ := ih (i + 1) _ _ r h
          refine ⟨c1, by omega, c3, ?_, c5⟩
          rw [c4]
          have h2 : r.lastIndex + 1 - i = (r.lastIndex + 1 - (i + 1)) + 1 := by
            omega
          rw [h2, List.range'_succ, List.flatMap_cons]
          simp
    · rw [if_pos hst] at h
      obtain ⟨c1, c2, c3, c4, c5⟩ := ih (i + 1) _ _ r h
      refine ⟨c1, by omega, c3, ?_, c5⟩
      rw [c4]
      have h2 : r.lastIndex + 1 - i = (r.lastIndex + 1 - (i + 1)) + 1 := by omega
      rw [h2, List.range'_succ, List.flatMap_cons]
      simp

/-- C5: when a Mode-B call exits through the timeout branch (main.py lines
115-118), the decision is made with the sentinel `risk_score = 100`
initialised at line 90 — the maximum of the score's 0-100 range — so the
outcome is a rejection whenever `max_risk_score < 100`, and an acceptance
only when the threshold is set to admit the sentinel itself. -/
theorem modeB_timeout_uses_sentinel
    (cfg : Roundtable) (a : String) (t : ℚ) (fetch : Nat → Response)
    (fd : Nat → ℚ) (st : ℚ) (fuel : Nat) (out : Outcome) (r : LoopResult)
    (h : validate_session cfg (some a) t fetch fd st fuel = some (out, r))
    (htimeout : r.timedOut = true) :
    r.risk_score = 100 ∧ a ∉ actions (fetch r.lastIndex) ∧
    t < r.finishTime - st ∧
    (cfg.max_risk_score < 100 → out = Outcome.reject cfg.status_code) ∧
    (100 ≤ cfg.max_risk_score → out = Outcome.accept) := by
  unfold validate_session at h
  cases hs : sessionLoop (some a) t fetch fd st fuel 0 st [] with
  | none => rw [hs] at h; simp at h
  | some r' =>
    rw [hs] at h
    simp only [Option.map_some', Option.some.injEq, Prod.mk.injEq] at h
    obtain ⟨hout, hr⟩ := h
    subst hr
    obtain ⟨c1, c2, c3, c4, c5⟩ := modeB_some_inv a t fetch fd st fuel 0 st [] r' hs
    rcases c5 with ⟨hf, _, _⟩ | ⟨_, hnotmem, hscore, htlt⟩
    · rw [hf] at htimeout; cases htimeout
    · refine ⟨hscore, hnotmem, htlt, fun hlt => ?_, fun hge => ?_⟩
      · rw [← hout, hscore, if_pos hlt]
      · rw [← hout, hscore, if_neg (by omega)]

/-- Witness for C5: empty logs with timeout 2 and instantaneous fetches:
the third poll trips the deadline, the sentinel 100 exceeds the threshold
50, and the call rejects with status 404. -/
theorem modeB_timeout_uses_sentinel_witness :
    (100 : Int) = 100 ∧ "login" ∉ actions (emptyLogsFetch 2) ∧
    (2 : ℚ) < 3 - 0 ∧
    ((50 : Int) < 100 → Outcome.reject 404 = Outcome.reject 404) ∧
    ((100 : Int) ≤ 50 → Outcome.reject 404 = Outcome.accept) :=
  modeB_timeout_uses_sentinel ⟨"key", 404, 50⟩ "login" 2 emptyLogsFetch
    zeroDur 0 4 (Outcome.reject 404)
    ⟨100, 3, 2, true,
      [Event.sleep 1, Event.fetchCall 0, Event.sleep 1, Event.fetchCall 1,
       Event.sleep 1, Event.fetchCall 2], 3⟩
    (by norm_num [validate_session, sessionLoop, emptyLogsFetch, zeroDur,
      actions, validation_pooling_interval])
    rfl

/-- C6: in Mode B, if the first `k` fetches fail and fetch `k` — the very
first successful fetch — carries the required action in its logs, the loop
terminates at that fetch (having performed exactly one successful poll)
using that fetch's risk score, for every timeout value.  In the spec's
scenario, where the action appears in the very first poll (`k = 0`), the
loop performs exactly one fetch in total. -/
theorem modeB_first_poll_action_single_fetch
    (cfg : Roundtable) (a : String) (t : ℚ) (fetch : Nat → Response)
    (fd : Nat → ℚ) (st : ℚ) (fuel k : Nat) (hk : k < fuel)
    (hfail : ∀ j, j < k → (fetch j).status ≠ 200)
    (hok : (fetch k).status = 200) (hmem : a ∈ actions (fetch k)) :
    (sessionLoop (some a) t fetch fd st fuel 0 st []).map loopView =
      some ((fetch k).risk_score, k + 1, k, false,
        (List.range (k + 1)).flatMap
          (fun j => [Event.sleep validation_pooling_interval,
                     Event.fetchCall j])) ∧
    (validate_session cfg (some a) t fetch fd st fuel).map Prod.fst =
      some (if cfg.max_risk_score < (fetch k).risk_score
            then Outcome.reject cfg.status_code else Outcome.accept) ∧
    (k = 0 → (sessionLoop (some a) t fetch fd st fuel 0 st []).map
        (fun r => r.fetches) = some 1) := by
  have h := modeB_run a t fetch fd st fuel 0 st [] k (Nat.zero_le k) (by omega)
    (fun j hj1 hj2 => hfail j hj2) hok hmem
  cases hs : sessionLoop (some a) t fetch fd st fuel 0 st [] with
  | none => rw [hs] at h; simp at h
  | some r =>
    rw [hs] at h
    simp only [Option.map_some', Option.some.injEq, loopView,
      Prod.mk.injEq] at h
    obtain ⟨h1, h2, h3, h4, h5⟩ := h
    refine ⟨?_, ?_, ?_⟩
    · simp [loopView, h1, h2, h3, h4, h5, List.range_eq_range']
    · unfold validate_session
      rw [hs]
      simp [h1]
    · intro hk0
      subst hk0
      simp [h2]

/-- Witness for C6: the first fetch succeeds with score 87 and a `login`
entry; the run fetches once and rejects against threshold 50, despite a
generous timeout of 1000. -/
theorem modeB_first_poll_action_single_fetch_witness :
    (sessionLoop (some "login") 1000 loginFetch zeroDur 0 3 0 0 []).map
        loopView =
      some ((87 : Int), 1, 0, false,
        (List.range 1).flatMap
          (fun j => [Event.sleep validation_pooling_interval,
                     Event.fetchCall j])) ∧
    (validate_session ⟨"key", 404, 50⟩ (some "login") 1000 loginFetch
        zeroDur 0 3).map Prod.fst =
      some (if (50 : Int) < 87 then Outcome.reject 404 else Outcome.accept) ∧
    ((0 : Nat) = 0 → (sessionLoop (some "login") 1000 loginFetch zeroDur 0 3
        0 0 []).map (fun r => r.fetches) = some 1) :=
  modeB_first_poll_action_single_fetch ⟨"key", 404, 50⟩ "login" 1000
    loginFetch zeroDur 0 3 0 (by omega) (fun j hj => absurd hj (by omega))
    (by simp [loginFetch]) (by simp [loginFetch, actions])

/-- C7: a Mode-B call that terminates always terminates at a successful
fetch — a non-200 fetch never ends the loop and there is no separate
failure budget: the trace shows every attempt, including each retry after a
failure, preceded by a sleep of the pooling interval, and the only exits
are action-found (with that fetch's score) and the wall-clock deadline
having been exceeded with the action absent. -/
theorem modeB_failure_never_terminates
    (a : String) (t : ℚ) (fetch : Nat → Response) (fd : Nat → ℚ)
    (st : ℚ) (fuel : Nat) (r : LoopResult)
    (h : sessionLoop (some a) t fetch fd st fuel 0 st [] = some r) :
    (fetch r.lastIndex).status = 200 ∧
    r.fetches = r.lastIndex + 1 ∧
    r.trace = (List.range (r.lastIndex + 1)).flatMap
        (fun j => [Event.sleep validation_pooling_interval,
                   Event.fetchCall j]) ∧
    (r.timedOut = true →
      a ∉ actions (fetch r.lastIndex) ∧ t < r.finishTime - st) ∧
    (r.timedOut = false →
      a ∈ actions (fetch r.lastIndex) ∧
      r.risk_score = (fetch r.lastIndex).risk_score) := by
  obtain ⟨c1, c2, c3, c4, c5⟩ := modeB_some_inv a t fetch fd st fuel 0 st [] r h
  refine ⟨c1, c3, by simpa [List.range_eq_range'] using c4, ?_, ?_⟩ <;>
    intro htv
  · rcases c5 with ⟨hf, _, _⟩ | ⟨_, hna, _, htl⟩
    · rw [hf] at htv; cases htv
    · exact ⟨hna, htl⟩
  · rcases c5 with ⟨_, hma, hsc⟩ | ⟨hf, _, _⟩
    · exact ⟨hma, hsc⟩
    · rw [hf] at htv; cases htv

/-- Witness for C7: first fetch fails with HTTP 500, second succeeds with
no logs; with timeout 0 the run ends at the second (successful) fetch via
the deadline, the failed attempt having been retried after a pooling-
interval sleep. -/
theorem modeB_failure_never_terminates_witness :
    (failThenOk 1).status = 200 ∧
    (2 : Nat) = 1 + 1 ∧
    [Event.sleep 1, Event.fetchCall 0, Event.sleep 1, Event.fetchCall 1] =
      (List.range (1 + 1)).flatMap
        (fun j => [Event.sleep validation_pooling_interval,
                   Event.fetchCall j]) ∧
    (true = true →
      "login" ∉ actions (failThenOk 1) ∧ (0 : ℚ) < 2 - 0) ∧
    (true = false →
      "login" ∈ actions (failThenOk 1) ∧
      (100 : Int) = (failThenOk 1).risk_score) :=
  modeB_failure_never_terminates "login" 0 failThenOk zeroDur 0 2
    ⟨100, 2, 1, true,
      [Event.sleep 1, Event.fetchCall 0, Event.sleep 1, Event.fetchCall 1], 2⟩
    (by norm_num [sessionLoop, failThenOk, zeroDur, actions,
      validation_pooling_interval])

/-- C10: at every loop state in Mode B, a successful fetch whose logs
contain the required action terminates the call with that fetch's risk
score even when the timeout has already elapsed by the time the response
arrives (hypothesis `_hlate`), because the membership test of main.py lines 109-113
runs before the elapsed-time test of lines 115-118; the sentinel is not
used (`timedOut = false`). -/
theorem modeB_action_check_before_timeout_check
    (a : String) (t : ℚ) (fetch : Nat → Response) (fd : Nat → ℚ)
    (st : ℚ) (fuel i : Nat) (ti : ℚ) (acc : List Event)
    (hok : (fetch i).status = 200) (hmem : a ∈ actions (fetch i))
    (_hlate : t < ti + validation_pooling_interval + fd i - st) :
    sessionLoop (some a) t fetch fd st (fuel + 1) i ti acc =
      some ⟨(fetch i).risk_score, i + 1, i, false,
        acc ++ [Event.sleep validation_pooling_interval, Event.fetchCall i],
        ti + validation_pooling_interval + fd i⟩ := by
  rw [sessionLoop_modeB_succ, if_neg (by simp [hok]), if_pos hmem]

/-- Witness for C10: the fetch takes 100 time units against a timeout of 5,
so the deadline has long passed when the response arrives; the call still
uses the fetched score 87, not the sentinel. -/
theorem modeB_action_check_before_timeout_check_witness :
    sessionLoop (some "login") 5 loginFetch hundredDur 0 (0 + 1) 0 0 [] =
      some ⟨(loginFetch 0).risk_score, 0 + 1, 0, false,
        [] ++ [Event.sleep validation_pooling_interval, Event.fetchCall 0],
        0 + validation_pooling_interval + hundredDur 0⟩ :=
  modeB_action_check_before_timeout_check "login" 5 loginFetch hundredDur
    0 0 0 0 [] (by simp [loginFetch]) (by simp [loginFetch, actions])
    (by norm_num [validation_pooling_interval, hundredDur])

end FastapiRoundtable
